import Mathlib

/-!
Verification of the `composable-utils` library (`src/lib.rs`).

The library operates on two composite container shapes:

* shape A, `Option<Result<T, E>>`, embedded as `Option (Except E T)`;
* shape B, `Result<Option<T>, E>`, embedded as `Except E (Option T)`.

Rust `Result<T, E>` is embedded as `Except E T` (`Except.ok` = `Ok`,
`Except.error` = `Err`) and Rust `Option<T>` as Lean `Option`.

Caller-supplied closures are `FnOnce` values in Rust and may have side
effects; to make the number of invocations observable, the operations that
take closures are embedded over an arbitrary monad `m`, with every call of a
closure written as an explicit monadic bind at exactly the places where the
source calls it.  Instantiating `m := Id` gives the pure value semantics;
instantiating `m := StateM Nat` (or `StateM (Nat × Nat)` when two closures
are present) with the counting wrappers below makes invocation counts part
of the result.  Rust `async` blocks and `.await` are likewise one monadic
bind: `f(t).await` becomes `f t >>= ...`.
-/

namespace ComposableUtils

/-- Wraps a pure closure so that each invocation increments a counter: the
monadic closure handed to an operation instantiated at `StateM Nat`. -/
def count1 {A B : Type} (f : A → B) : A → StateM Nat B :=
  fun a s => (f a, s + 1)

/-- Counting wrapper for the first of two closures (the default-error
factory): increments the first component of a `StateM (Nat × Nat)` state. -/
def countFst {A B : Type} (f : A → B) : A → StateM (Nat × Nat) B :=
  fun a s => (f a, (s.1 + 1, s.2))

/-- Counting wrapper for the second of two closures (the error mapper):
increments the second component of a `StateM (Nat × Nat)` state. -/
def countSnd {A B : Type} (f : A → B) : A → StateM (Nat × Nat) B :=
  fun a s => (f a, (s.1, s.2 + 1))

/-- `async_map` from `impl AsyncOptionExt for Option<T>` (src/lib.rs lines
168-173): `Some(t) => Some(f(t).await)`, `None => None`. -/
def async_map {T U : Type} {m : Type → Type} [Monad m]
    (x : Option T) (f : T → m U) : m (Option U) :=
  match x with
  | some t => f t >>= fun u => pure (some u)
  | none => pure none

/-! Shape A: `impl ResultOptionExt for Option<Result<T, E>>`
(src/lib.rs lines 176-208). -/

namespace OptionResult

/-- `unwrap_or_err` for shape A (src/lib.rs lines 177-183). -/
def unwrap_or_err {T E E2 : Type} (x : Option (Except E T)) (err : E2) :
    Except E2 T :=
  match x with
  | some (Except.ok t) => Except.ok t
  | some (Except.error _) => Except.error err
  | none => Except.error err

/-- `unwrap_or_else_err` for shape A (src/lib.rs lines 185-191): `f` is
called once on each of the `Some(Err(_))` and `None` branches. -/
def unwrap_or_else_err {T E E2 : Type} {m : Type → Type} [Monad m]
    (x : Option (Except E T)) (f : Unit → m E2) : m (Except E2 T) :=
  match x with
  | some (Except.ok t) => pure (Except.ok t)
  | some (Except.error _) => f () >>= fun e2 => pure (Except.error e2)
  | none => f () >>= fun e2 => pure (Except.error e2)

/-- `unwrap_or_map_err` for shape A (src/lib.rs lines 193-199): `f` is
called on the contained error on the `Some(Err(e))` branch, and `default`
is the eagerly supplied value returned on the `None` branch. -/
def unwrap_or_map_err {T E E2 : Type} {m : Type → Type} [Monad m]
    (x : Option (Except E T)) (default : E2) (f : E → m E2) :
    m (Except E2 T) :=
  match x with
  | some (Except.ok t) => pure (Except.ok t)
  | some (Except.error e) => f e >>= fun e2 => pure (Except.error e2)
  | none => pure (Except.error default)

/-- `unwrap_or_else_map_err` for shape A (src/lib.rs lines 201-207): `f`
maps the contained error on the `Some(Err(e))` branch, `default` is the
factory called only on the `None` branch. -/
def unwrap_or_else_map_err {T E E2 : Type} {m : Type → Type} [Monad m]
    (x : Option (Except E T)) (default : Unit → m E2) (f : E → m E2) :
    m (Except E2 T) :=
  match x with
  | some (Except.ok t) => pure (Except.ok t)
  | some (Except.error e) => f e >>= fun e2 => pure (Except.error e2)
  | none => default () >>= fun e2 => pure (Except.error e2)

end OptionResult

/-! Shape B: `impl ResultOptionExt for Result<Option<T>, E>`
(src/lib.rs lines 210-250). -/

namespace ResultOption

/-- `unwrap_or_err` for shape B (src/lib.rs lines 211-219). -/
def unwrap_or_err {T E E2 : Type} (x : Except E (Option T)) (err : E2) :
    Except E2 T :=
  match x with
  | Except.ok t =>
    match t with
    | some t => Except.ok t
    | none => Except.error err
  | Except.error _ => Except.error err

/-- `unwrap_or_else_err` for shape B (src/lib.rs lines 221-229): `f` is
called once on each of the `Ok(None)` and `Err(_)` branches. -/
def unwrap_or_else_err {T E E2 : Type} {m : Type → Type} [Monad m]
    (x : Except E (Option T)) (f : Unit → m E2) : m (Except E2 T) :=
  match x with
  | Except.ok t =>
    match t with
    | some t => pure (Except.ok t)
    | none => f () >>= fun e2 => pure (Except.error e2)
  | Except.error _ => f () >>= fun e2 => pure (Except.error e2)

/-- `unwrap_or_map_err` for shape B (src/lib.rs lines 231-239): `f` maps the
contained error on the `Err(e)` branch, `default` is returned eagerly on the
`Ok(None)` branch. -/
def unwrap_or_map_err {T E E2 : Type} {m : Type → Type} [Monad m]
    (x : Except E (Option T)) (default : E2) (f : E → m E2) :
    m (Except E2 T) :=
  match x with
  | Except.ok t =>
    match t with
    | some t => pure (Except.ok t)
    | none => pure (Except.error default)
  | Except.error e => f e >>= fun e2 => pure (Except.error e2)

/-- `unwrap_or_else_map_err` for shape B (src/lib.rs lines 241-249): `f`
maps the contained error on the `Err(e)` branch, `default` is the factory
called only on the `Ok(None)` branch. -/
def unwrap_or_else_map_err {T E E2 : Type} {m : Type → Type} [Monad m]
    (x : Except E (Option T)) (default : Unit → m E2) (f : E → m E2) :
    m (Except E2 T) :=
  match x with
  | Except.ok t =>
    match t with
    | some t => pure (Except.ok t)
    | none => default () >>= fun e2 => pure (Except.error e2)
  | Except.error e => f e >>= fun e2 => pure (Except.error e2)

end ResultOption

/-- The state bijection between the two composite shapes:
`Some(Ok(t)) ↔ Ok(Some(t))`, `Some(Err(e)) ↔ Err(e)`, `None ↔ Ok(None)`. -/
def toResultOption {T E : Type} : Option (Except E T) → Except E (Option T)
  | some (Except.ok t) => Except.ok (some t)
  | some (Except.error e) => Except.error e
  | none => Except.ok none

end ComposableUtils

namespace ComposableUtils

/-- C1: on either composite shape, `unwrap_or_err(err)` returns `Ok(t)` on
the success-with-present-value state and `Err(err)` on both the no-value
state and the existing-failure state, discarding the original error. -/
theorem unwrap_or_err_spec :
    (∀ (T E E2 : Type) (t : T) (err : E2),
      OptionResult.unwrap_or_err (E := E) (some (Except.ok t)) err =
        Except.ok t) ∧
    (∀ (T E E2 : Type) (e : E) (err : E2),
      OptionResult.unwrap_or_err (T := T) (some (Except.error e)) err =
        Except.error err) ∧
    (∀ (T E E2 : Type) (err : E2),
      OptionResult.unwrap_or_err (T := T) (E := E) none err =
        Except.error err) ∧
    (∀ (T E E2 : Type) (t : T) (err : E2),
      ResultOption.unwrap_or_err (E := E) (Except.ok (some t)) err =
        Except.ok t) ∧
    (∀ (T E E2 : Type) (err : E2),
      ResultOption.unwrap_or_err (T := T) (E := E) (Except.ok none) err =
        Except.error err) ∧
    (∀ (T E E2 : Type) (e : E) (err : E2),
      ResultOption.unwrap_or_err (T := T) (Except.error e) err =
        Except.error err) :=
  ⟨fun _ _ _ _ _ => rfl, fun _ _ _ _ _ => rfl, fun _ _ _ _ => rfl,
   fun _ _ _ _ _ => rfl, fun _ _ _ _ => rfl, fun _ _ _ _ _ => rfl⟩

/-- C2: on either composite shape, `unwrap_or_map_err(default, f)` returns
`Ok(t)` on the success-with-present-value state, `Err(default)` on the
no-value state, and `Err(f(e))` on the existing-failure state: the original
error is transformed by the mapping function, not discarded, and the eager
default is unused on that path. -/
theorem unwrap_or_map_err_spec :
    (∀ (T E E2 : Type) (t : T) (d : E2) (f : E → E2),
      OptionResult.unwrap_or_map_err (m := Id) (some (Except.ok t)) d f =
        Except.ok t) ∧
    (∀ (T E E2 : Type) (e : E) (d : E2) (f : E → E2),
      OptionResult.unwrap_or_map_err (m := Id) (T := T)
          (some (Except.error e)) d f =
        Except.error (f e)) ∧
    (∀ (T E E2 : Type) (d : E2) (f : E → E2),
      OptionResult.unwrap_or_map_err (m := Id) (T := T) none d f =
        Except.error d) ∧
    (∀ (T E E2 : Type) (t : T) (d : E2) (f : E → E2),
      ResultOption.unwrap_or_map_err (m := Id) (Except.ok (some t)) d f =
        Except.ok t) ∧
    (∀ (T E E2 : Type) (d : E2) (f : E → E2),
      ResultOption.unwrap_or_map_err (m := Id) (T := T)
          (Except.ok none) d f =
        Except.error d) ∧
    (∀ (T E E2 : Type) (e : E) (d : E2) (f : E → E2),
      ResultOption.unwrap_or_map_err (m := Id) (T := T)
          (Except.error e) d f =
        Except.error (f e)) :=
  ⟨fun _ _ _ _ _ _ => rfl, fun _ _ _ _ _ _ => rfl, fun _ _ _ _ _ => rfl,
   fun _ _ _ _ _ _ => rfl, fun _ _ _ _ _ => rfl, fun _ _ _ _ _ _ => rfl⟩

/-- C3: on either composite shape, `unwrap_or_else_err(f)` returns `Ok(t)`
on the success-with-present-value state and `Err(f())` on both the no-value
state and the existing-failure state, with the factory invoked exactly once
on those two branches (the invocation counter ends at 1) and the original
error discarded. -/
theorem unwrap_or_else_err_spec :
    (∀ (T E E2 : Type) (t : T) (f : Unit → E2),
      OptionResult.unwrap_or_else_err (m := Id) (E := E)
          (some (Except.ok t)) f =
        Except.ok t) ∧
    (∀ (T E E2 : Type) (e : E) (f : Unit → E2),
      (OptionResult.unwrap_or_else_err (T := T)
          (some (Except.error e)) (count1 f)).run 0 =
        (Except.error (f ()), 1)) ∧
    (∀ (T E E2 : Type) (f : Unit → E2),
      (OptionResult.unwrap_or_else_err (T := T) (E := E)
          none (count1 f)).run 0 =
        (Except.error (f ()), 1)) ∧
    (∀ (T E E2 : Type) (t : T) (f : Unit → E2),
      ResultOption.unwrap_or_else_err (m := Id) (E := E)
          (Except.ok (some t)) f =
        Except.ok t) ∧
    (∀ (T E E2 : Type) (f : Unit → E2),
      (ResultOption.unwrap_or_else_err (T := T) (E := E)
          (Except.ok none) (count1 f)).run 0 =
        (Except.error (f ()), 1)) ∧
    (∀ (T E E2 : Type) (e : E) (f : Unit → E2),
      (ResultOption.unwrap_or_else_err (T := T)
          (Except.error e) (count1 f)).run 0 =
        (Except.error (f ()), 1)) :=
  ⟨fun _ _ _ _ _ => rfl, fun _ _ _ _ _ => rfl, fun _ _ _ _ => rfl,
   fun _ _ _ _ _ => rfl, fun _ _ _ _ => rfl, fun _ _ _ _ _ => rfl⟩

/-- C4: on either composite shape, `unwrap_or_else_map_err(d, f)` returns
`Ok(t)` on the success-with-present-value state, `Err(d())` on the no-value
state — the factory `d` invoked lazily, exactly once, only there — and
`Err(f(e))` on the existing-failure state.  Counters: first component
counts factory invocations, second counts mapper invocations. -/
theorem unwrap_or_else_map_err_spec :
    (∀ (T E E2 : Type) (t : T) (d : Unit → E2) (f : E → E2),
      OptionResult.unwrap_or_else_map_err (m := Id) (some (Except.ok t)) d f =
        Except.ok t) ∧
    (∀ (T E E2 : Type) (e : E) (d : Unit → E2) (f : E → E2),
      (OptionResult.unwrap_or_else_map_err (T := T)
          (some (Except.error e)) (countFst d) (countSnd f)).run (0, 0) =
        (Except.error (f e), (0, 1))) ∧
    (∀ (T E E2 : Type) (d : Unit → E2) (f : E → E2),
      (OptionResult.unwrap_or_else_map_err (T := T)
          none (countFst d) (countSnd f)).run (0, 0) =
        (Except.error (d ()), (1, 0))) ∧
    (∀ (T E E2 : Type) (t : T) (d : Unit → E2) (f : E → E2),
      ResultOption.unwrap_or_else_map_err (m := Id) (Except.ok (some t)) d f =
        Except.ok t) ∧
    (∀ (T E E2 : Type) (d : Unit → E2) (f : E → E2),
      (ResultOption.unwrap_or_else_map_err (T := T)
          (Except.ok none) (countFst d) (countSnd f)).run (0, 0) =
        (Except.error (d ()), (1, 0))) ∧
    (∀ (T E E2 : Type) (e : E) (d : Unit → E2) (f : E → E2),
      (ResultOption.unwrap_or_else_map_err (T := T)
          (Except.error e) (countFst d) (countSnd f)).run (0, 0) =
        (Except.error (f e), (0, 1))) :=
  ⟨fun _ _ _ _ _ _ => rfl, fun _ _ _ _ _ _ => rfl, fun _ _ _ _ _ => rfl,
   fun _ _ _ _ _ _ => rfl, fun _ _ _ _ _ => rfl, fun _ _ _ _ _ _ => rfl⟩

/-- C5: for every value `t` and every one of the four collapse operations on
either shape, collapsing `Ok(Some(t))` (shape B) or `Some(Ok(t))` (shape A)
yields `Ok(t)`, and neither the default-error factory nor the error-mapping
closure is invoked on that path (every invocation counter ends at 0;
`unwrap_or_err` takes no closure at all, so only its value is stated). -/
theorem success_passthrough :
    (∀ (T E E2 : Type) (t : T) (err : E2),
      OptionResult.unwrap_or_err (E := E) (some (Except.ok t)) err =
        Except.ok t) ∧
    (∀ (T E E2 : Type) (t : T) (err : E2),
      ResultOption.unwrap_or_err (E := E) (Except.ok (some t)) err =
        Except.ok t) ∧
    (∀ (T E E2 : Type) (t : T) (f : Unit → E2),
      (OptionResult.unwrap_or_else_err (E := E)
          (some (Except.ok t)) (count1 f)).run 0 =
        (Except.ok t, 0)) ∧
    (∀ (T E E2 : Type) (t : T) (f : Unit → E2),
      (ResultOption.unwrap_or_else_err (E := E)
          (Except.ok (some t)) (count1 f)).run 0 =
        (Except.ok t, 0)) ∧
    (∀ (T E E2 : Type) (t : T) (d : E2) (f : E → E2),
      (OptionResult.unwrap_or_map_err
          (some (Except.ok t)) d (count1 f)).run 0 =
        (Except.ok t, 0)) ∧
    (∀ (T E E2 : Type) (t : T) (d : E2) (f : E → E2),
      (ResultOption.unwrap_or_map_err
          (Except.ok (some t)) d (count1 f)).run 0 =
        (Except.ok t, 0)) ∧
    (∀ (T E E2 : Type) (t : T) (d : Unit → E2) (f : E → E2),
      (OptionResult.unwrap_or_else_map_err
          (some (Except.ok t)) (countFst d) (countSnd f)).run (0, 0) =
        (Except.ok t, (0, 0))) ∧
    (∀ (T E E2 : Type) (t : T) (d : Unit → E2) (f : E → E2),
      (ResultOption.unwrap_or_else_map_err
          (Except.ok (some t)) (countFst d) (countSnd f)).run (0, 0) =
        (Except.ok t, (0, 0))) :=
  ⟨fun _ _ _ _ _ => rfl, fun _ _ _ _ _ => rfl, fun _ _ _ _ _ => rfl,
   fun _ _ _ _ _ => rfl, fun _ _ _ _ _ _ => rfl, fun _ _ _ _ _ _ => rfl,
   fun _ _ _ _ _ _ => rfl, fun _ _ _ _ _ _ => rfl⟩

/-- C6: the two composite shapes behave identically under every collapse
operation: along the bijection `toResultOption` (`Some(Ok(t)) ↔ Ok(Some(t))`,
`Some(Err(e)) ↔ Err(e)`, `None ↔ Ok(None)`), each of the four operations
returns the same result on corresponding states.  The closure-taking
operations are compared at an arbitrary monad and arbitrary monadic
closures, so the monadic effects — in particular which closures are invoked,
and how often — coincide as well, not merely the pure values. -/
theorem shape_equivalence :
    (∀ (T E E2 : Type) (x : Option (Except E T)) (err : E2),
      ResultOption.unwrap_or_err (toResultOption x) err =
        OptionResult.unwrap_or_err x err) ∧
    (∀ (T E E2 : Type) (m : Type → Type) [Monad m]
        (x : Option (Except E T)) (f : Unit → m E2),
      ResultOption.unwrap_or_else_err (toResultOption x) f =
        OptionResult.unwrap_or_else_err x f) ∧
    (∀ (T E E2 : Type) (m : Type → Type) [Monad m]
        (x : Option (Except E T)) (d : E2) (f : E → m E2),
      ResultOption.unwrap_or_map_err (toResultOption x) d f =
        OptionResult.unwrap_or_map_err x d f) ∧
    (∀ (T E E2 : Type) (m : Type → Type) [Monad m]
        (x : Option (Except E T)) (d : Unit → m E2) (f : E → m E2),
      ResultOption.unwrap_or_else_map_err (toResultOption x) d f =
        OptionResult.unwrap_or_else_map_err x d f) := by
  refine ⟨fun T E E2 x err => ?_, fun T E E2 m _ x f => ?_,
          fun T E E2 m _ x d f => ?_, fun T E E2 m _ x d f => ?_⟩ <;>
    rcases x with _ | (t | e) <;> rfl

/-- C7 counterexample: the claim says the default-error factory of every
`_else_`-suffixed operation is invoked exactly once on every input state
other than success-with-present-value, but on the existing-failure state
`Some(Err(0))`, `unwrap_or_else_map_err` invokes the factory zero times
(the first counter, counting factory calls, does not end at 1: the mapper
is invoked there instead). -/
theorem else_factory_once_cex :
    ((OptionResult.unwrap_or_else_map_err (T := Nat)
        (some (Except.error (0 : Nat)))
        (countFst (fun _ => (7 : Nat))) (countSnd (fun e => e + 3))).run
      (0, 0)).2.1 ≠ 1 := by
  decide

/-- C7 amended: on either shape the default-error factory of the
`_else_`-suffixed operations is invoked zero times on the
success-with-present-value state; for `unwrap_or_else_err` it is invoked
exactly once on each remaining state, while for `unwrap_or_else_map_err` it
is invoked exactly once on the no-value state and zero times on the
existing-failure state, where the error mapper is invoked exactly once
instead.  The counter in the `unwrap_or_else_err` statements counts factory
calls; in the `unwrap_or_else_map_err` statements the first component counts
factory calls and the second counts mapper calls. -/
theorem else_factory_counts :
    (∀ (T E E2 : Type) (t : T) (f : Unit → E2),
      ((OptionResult.unwrap_or_else_err (E := E)
          (some (Except.ok t)) (count1 f)).run 0).2 = 0) ∧
    (∀ (T E E2 : Type) (e : E) (f : Unit → E2),
      ((OptionResult.unwrap_or_else_err (T := T)
          (some (Except.error e)) (count1 f)).run 0).2 = 1) ∧
    (∀ (T E E2 : Type) (f : Unit → E2),
      ((OptionResult.unwrap_or_else_err (T := T) (E := E)
          none (count1 f)).run 0).2 = 1) ∧
    (∀ (T E E2 : Type) (t : T) (f : Unit → E2),
      ((ResultOption.unwrap_or_else_err (E := E)
          (Except.ok (some t)) (count1 f)).run 0).2 = 0) ∧
    (∀ (T E E2 : Type) (f : Unit → E2),
      ((ResultOption.unwrap_or_else_err (T := T) (E := E)
          (Except.ok none) (count1 f)).run 0).2 = 1) ∧
    (∀ (T E E2 : Type) (e : E) (f : Unit → E2),
      ((ResultOption.unwrap_or_else_err (T := T)
          (Except.error e) (count1 f)).run 0).2 = 1) ∧
    (∀ (T E E2 : Type) (t : T) (d : Unit → E2) (f : E → E2),
      ((OptionResult.unwrap_or_else_map_err
          (some (Except.ok t)) (countFst d) (countSnd f)).run (0, 0)).2 =
        (0, 0)) ∧
    (∀ (T E E2 : Type) (d : Unit → E2) (f : E → E2),
      ((OptionResult.unwrap_or_else_map_err (T := T)
          none (countFst d) (countSnd f)).run (0, 0)).2 =
        (1, 0)) ∧
    (∀ (T E E2 : Type) (e : E) (d : Unit → E2) (f : E → E2),
      ((OptionResult.unwrap_or_else_map_err (T := T)
          (some (Except.error e)) (countFst d) (countSnd f)).run (0, 0)).2 =
        (0, 1)) ∧
    (∀ (T E E2 : Type) (t : T) (d : Unit → E2) (f : E → E2),
      ((ResultOption.unwrap_or_else_map_err
          (Except.ok (some t)) (countFst d) (countSnd f)).run (0, 0)).2 =
        (0, 0)) ∧
    (∀ (T E E2 : Type) (d : Unit → E2) (f : E → E2),
      ((ResultOption.unwrap_or_else_map_err (T := T)
          (Except.ok none) (countFst d) (countSnd f)).run (0, 0)).2 =
        (1, 0)) ∧
    (∀ (T E E2 : Type) (e : E) (d : Unit → E2) (f : E → E2),
      ((ResultOption.unwrap_or_else_map_err (T := T)
          (Except.error e) (countFst d) (countSnd f)).run (0, 0)).2 =
        (0, 1)) :=
  ⟨fun _ _ _ _ _ => rfl, fun _ _ _ _ _ => rfl, fun _ _ _ _ => rfl,
   fun _ _ _ _ _ => rfl, fun _ _ _ _ => rfl, fun _ _ _ _ _ => rfl,
   fun _ _ _ _ _ _ => rfl, fun _ _ _ _ _ => rfl, fun _ _ _ _ _ _ => rfl,
   fun _ _ _ _ _ _ => rfl, fun _ _ _ _ _ => rfl, fun _ _ _ _ _ _ => rfl⟩

/-- C8 counterexample: the claim says the non-mapping variants pass an
existing failure through unchanged, returning `Err` of the original error
`e`; but `unwrap_or_err` on `Some(Err(0))` with default error `1` returns
`Err(1)`, not `Err(0)` — the original error is discarded, not passed
through. -/
theorem failure_passthrough_cex :
    OptionResult.unwrap_or_err (T := Nat)
        (some (Except.error (0 : Nat))) (1 : Nat) ≠
      Except.error 0 := by
  intro h
  simp [OptionResult.unwrap_or_err] at h

/-- C8 amended: on every existing-failure input, the non-mapping variants
(`unwrap_or_err` and `unwrap_or_else_err`) discard the original error `e`
and return `Err` of the supplied default error (eager value, or the
factory's result, the factory invoked exactly once); the mapping variants
transform `e` exactly once through the caller-supplied function, returning
`Err(f(e))` with the mapper's invocation counter ending at 1. -/
theorem failure_collapse_behavior :
    (∀ (T E E2 : Type) (e : E) (err : E2),
      OptionResult.unwrap_or_err (T := T) (some (Except.error e)) err =
        Except.error err) ∧
    (∀ (T E E2 : Type) (e : E) (err : E2),
      ResultOption.unwrap_or_err (T := T) (Except.error e) err =
        Except.error err) ∧
    (∀ (T E E2 : Type) (e : E) (f : Unit → E2),
      (OptionResult.unwrap_or_else_err (T := T)
          (some (Except.error e)) (count1 f)).run 0 =
        (Except.error (f ()), 1)) ∧
    (∀ (T E E2 : Type) (e : E) (f : Unit → E2),
      (ResultOption.unwrap_or_else_err (T := T)
          (Except.error e) (count1 f)).run 0 =
        (Except.error (f ()), 1)) ∧
    (∀ (T E E2 : Type) (e : E) (d : E2) (f : E → E2),
      (OptionResult.unwrap_or_map_err (T := T)
          (some (Except.error e)) d (count1 f)).run 0 =
        (Except.error (f e), 1)) ∧
    (∀ (T E E2 : Type) (e : E) (d : E2) (f : E → E2),
      (ResultOption.unwrap_or_map_err (T := T)
          (Except.error e) d (count1 f)).run 0 =
        (Except.error (f e), 1)) ∧
    (∀ (T E E2 : Type) (e : E) (d : Unit → E2) (f : E → E2),
      (OptionResult.unwrap_or_else_map_err (T := T)
          (some (Except.error e)) (countFst d) (countSnd f)).run (0, 0) =
        (Except.error (f e), (0, 1))) ∧
    (∀ (T E E2 : Type) (e : E) (d : Unit → E2) (f : E → E2),
      (ResultOption.unwrap_or_else_map_err (T := T)
          (Except.error e) (countFst d) (countSnd f)).run (0, 0) =
        (Except.error (f e), (0, 1))) :=
  ⟨fun _ _ _ _ _ => rfl, fun _ _ _ _ _ => rfl, fun _ _ _ _ _ => rfl,
   fun _ _ _ _ _ => rfl, fun _ _ _ _ _ _ => rfl, fun _ _ _ _ _ _ => rfl,
   fun _ _ _ _ _ _ => rfl, fun _ _ _ _ _ _ => rfl⟩

/-- C9: `async_map` on an optional value returns `None` on `None` with the
transformation never invoked (counter 0, no bind on the suspending
computation occurs), and on `Some(t)` invokes `f t` exactly once (counter
1), binds on — awaits — its result `u`, and returns `Some(u)`; concretely,
mapping `Some(69)` through doubling yields `Some(138)`. -/
theorem async_map_spec :
    (∀ (T U : Type) (f : T → U),
      async_map (m := Id) (none : Option T) f = none) ∧
    (∀ (T U : Type) (f : T → U),
      (async_map (none : Option T) (count1 f)).run 0 =
        ((none : Option U), 0)) ∧
    (∀ (T U : Type) (t : T) (f : T → U),
      (async_map (some t) (count1 f)).run 0 = (some (f t), 1)) ∧
    async_map (m := Id) (some (69 : Nat)) (fun v => v * 2) = some 138 :=
  ⟨fun _ _ _ => rfl, fun _ _ _ => rfl, fun _ _ _ _ => rfl, rfl⟩

/-- C10: the eager collapse operations are instances of their lazy
counterparts with a constant factory: for every input of either shape,
`unwrap_or_err x e2` equals `unwrap_or_else_err x (fun _ => e2)` and
`unwrap_or_map_err x e2 f` equals `unwrap_or_else_map_err x (fun _ => e2) f`
(with the pure value semantics, `m := Id`). -/
theorem eager_is_lazy_with_const :
    (∀ (T E E2 : Type) (x : Option (Except E T)) (e2 : E2),
      OptionResult.unwrap_or_err x e2 =
        OptionResult.unwrap_or_else_err (m := Id) x (fun _ => e2)) ∧
    (∀ (T E E2 : Type) (x : Except E (Option T)) (e2 : E2),
      ResultOption.unwrap_or_err x e2 =
        ResultOption.unwrap_or_else_err (m := Id) x (fun _ => e2)) ∧
    (∀ (T E E2 : Type) (x : Option (Except E T)) (e2 : E2) (f : E → E2),
      OptionResult.unwrap_or_map_err (m := Id) x e2 f =
        OptionResult.unwrap_or_else_map_err (m := Id) x (fun _ => e2) f) ∧
    (∀ (T E E2 : Type) (x : Except E (Option T)) (e2 : E2) (f : E → E2),
      ResultOption.unwrap_or_map_err (m := Id) x e2 f =
        ResultOption.unwrap_or_else_map_err (m := Id) x (fun _ => e2) f) := by
  refine ⟨fun T E E2 x e2 => ?_, fun T E E2 x e2 => ?_,
          fun T E E2 x e2 f => ?_, fun T E E2 x e2 f => ?_⟩ <;>
    rcases x with _ | (t | e) <;> rfl

end ComposableUtils
